import Mathlib

/-!
Shallow embedding of the Gmail webhook triage backend
(apps/backend: models.py, webhook.py, email_processor.py, main.py).

Python strings are modelled as lists of characters (`PyStr`), byte strings
as lists of naturals below 256 (`PyBytes`), JSON-like dynamic values as the
inductive `JVal`, and Python exceptions as the `PyExn` error type of
`Except`.  Fire-and-forget effects (Composio tool fetches, agent runs,
Supabase queries) are passed in as explicit environment values, and the
observable actions of a run are collected in small event traces.
-/

set_option maxRecDepth 4096

namespace GmailFilter

/-- Python `str`, modelled as a list of unicode characters. -/
abbrev PyStr := List Char

/-- Python `bytes`, modelled as a list of byte values. -/
abbrev PyBytes := List Nat

/-- Convert a Lean string literal to the `PyStr` model. -/
def pstr (s : String) : PyStr := s.toList

/-- Dynamic JSON-like values as passed around by the Python code
(`Dict[str, Any]` payloads). Objects keep their fields as association
lists with unique keys (the shape produced by `json.loads`). -/
inductive JVal where
  | jnull : JVal
  | jbool (b : Bool) : JVal
  | jnum (n : Int) : JVal
  | jstr (s : PyStr) : JVal
  | jarr (elems : List JVal) : JVal
  | jobj (fields : List (PyStr × JVal)) : JVal

/-- Python exceptions that the embedded code can raise. -/
inductive PyExn where
  | valueError (msg : PyStr) : PyExn
  | typeError : PyExn
  | attributeError : PyExn
  | keyError : PyExn
  | unicodeDecodeError : PyExn
  | validationError : PyExn
  | httpException (status : Nat) (detail : PyStr) : PyExn
  deriving DecidableEq, Repr

/-- First binding of a key in the field list of an object (dict lookup). -/
def jfind : List (PyStr × JVal) → PyStr → Option JVal
  | [], _ => none
  | (k, v) :: rest, key => if k = key then some v else jfind rest key

/-- Python truthiness of a JSON value (`if x:`). -/
def pyTruthy : JVal → Bool
  | .jnull => false
  | .jbool b => b
  | .jnum n => n != 0
  | .jstr s => !s.isEmpty
  | .jarr l => !l.isEmpty
  | .jobj l => !l.isEmpty

/-- Python truthiness of an optional value (`dict.get` may return `None`). -/
def pyTruthyO : Option JVal → Bool
  | none => false
  | some v => pyTruthy v

/-- Python `obj.get(key)`: `None` when the key is absent, `AttributeError`
when the receiver is not a dict. -/
def dget (v : JVal) (k : PyStr) : Except PyExn (Option JVal) :=
  match v with
  | .jobj fs => .ok (jfind fs k)
  | _ => .error .attributeError

/-- Python `obj.get(key, default)`. -/
def dgetD (v : JVal) (k : PyStr) (d : JVal) : Except PyExn JVal :=
  (dget v k).map (fun o => o.getD d)

/-- Python `==` comparison of a dynamic value against a string literal:
true exactly for an equal string. -/
def jeqStr (o : Option JVal) (s : PyStr) : Bool :=
  match o with
  | some (.jstr t) => t = s
  | _ => false

/-- Python `obj[key]` on a dict: `KeyError` when absent, `TypeError` when
the receiver is not subscriptable by string. -/
def jsub (v : JVal) (k : PyStr) : Except PyExn JVal :=
  match v with
  | .jobj fs =>
      match jfind fs k with
      | some x => .ok x
      | none => .error .keyError
  | _ => .error .typeError

/-- Iterating a value with `for`: only list values are modelled as
iterable, anything else raises `TypeError`. -/
def asList (v : JVal) : Except PyExn (List JVal) :=
  match v with
  | .jarr xs => .ok xs
  | _ => .error .typeError

/-- Calling a `str` method such as `.lower()` on a value: raises
`AttributeError` unless the value is a string. -/
def asStr (v : JVal) : Except PyExn PyStr :=
  match v with
  | .jstr s => .ok s
  | _ => .error .attributeError

/-- Passing a value to `base64.urlsafe_b64decode`: raises `TypeError`
unless it is a string. -/
def asStrB (v : JVal) : Except PyExn PyStr :=
  match v with
  | .jstr s => .ok s
  | _ => .error .typeError

/-- Integer rendered as its decimal character sequence (Python `str(n)`). -/
def intToChars (n : Int) : PyStr := (toString n).toList

/-- Pydantic v1 validation of a `str` field: strings pass through, numbers
and booleans are coerced by `str(...)`, anything else fails validation. -/
def validateStr (v : JVal) : Except PyExn PyStr :=
  match v with
  | .jstr s => .ok s
  | .jnum n => .ok (intToChars n)
  | .jbool b => .ok (if b then pstr "True" else pstr "False")
  | _ => .error .validationError

/-- Pydantic v1 validation of a `List[str]` field. -/
def validateStrList (v : JVal) : Except PyExn (List PyStr) :=
  match v with
  | .jarr xs => xs.mapM validateStr
  | _ => .error .validationError

/-- Python `str.lower()` (ASCII case folding, the only case the payloads
exercise). -/
def pyLower (s : PyStr) : PyStr := s.map Char.toLower

/-- Parse the digits of a decimal literal. -/
def digitsToNat : List Char → Option Nat
  | [] => none
  | cs =>
      if cs.all Char.isDigit then
        some (cs.foldl (fun acc c => acc * 10 + (c.toNat - 48)) 0)
      else none

/-- Python `int(...)` applied to a dynamic value: ints pass through, bools
become 0/1, decimal strings are parsed (`ValueError` otherwise), anything
else raises `TypeError`. -/
def pyInt (v : JVal) : Except PyExn Int :=
  match v with
  | .jnum n => .ok n
  | .jbool b => .ok (if b then 1 else 0)
  | .jstr s =>
      match s with
      | '-' :: rest =>
          match digitsToNat rest with
          | some m => .ok (-(m : Int))
          | none => .error (.valueError (pstr "invalid literal for int"))
      | _ =>
          match digitsToNat s with
          | some m => .ok (m : Int)
          | none => .error (.valueError (pstr "invalid literal for int"))
  | _ => .error .typeError

/-! ### Base64 (`base64.urlsafe_b64decode` / `base64.b64encode`) -/

/-- Value of one character of the standard base64 alphabet. -/
def b64CharVal (c : Char) : Option Nat :=
  if 'A' ≤ c ∧ c ≤ 'Z' then some (c.toNat - 65)
  else if 'a' ≤ c ∧ c ≤ 'z' then some (c.toNat - 97 + 26)
  else if '0' ≤ c ∧ c ≤ '9' then some (c.toNat - 48 + 52)
  else if c = '+' then some 62
  else if c = '/' then some 63
  else none

/-- Decode quads of base64 characters; `none` models `binascii.Error`
(bad padding). Characters outside the alphabet have already been
discarded, as the lenient CPython decoder does. -/
def b64Quads : List Char → Option PyBytes
  | [] => some []
  | a :: b :: '=' :: '=' :: [] => do
      let x ← b64CharVal a
      let y ← b64CharVal b
      pure [x * 4 + y / 16]
  | a :: b :: c :: '=' :: [] => do
      let x ← b64CharVal a
      let y ← b64CharVal b
      let z ← b64CharVal c
      pure [x * 4 + y / 16, (y % 16) * 16 + z / 4]
  | a :: b :: c :: d :: rest => do
      let x ← b64CharVal a
      let y ← b64CharVal b
      let z ← b64CharVal c
      let w ← b64CharVal d
      let tail ← b64Quads rest
      pure ([x * 4 + y / 16, (y % 16) * 16 + z / 4, (z % 4) * 64 + w] ++ tail)
  | _ => none

/-- `base64.urlsafe_b64decode` on a `str`: map the urlsafe alphabet onto
the standard one, discard foreign characters, decode; `none` models a
raised `binascii.Error`. -/
def urlsafeB64Decode (s : PyStr) : Option PyBytes :=
  let std := s.map (fun c => if c = '-' then '+' else if c = '_' then '/' else c)
  let kept := std.filter (fun c => (b64CharVal c).isSome || c = '=')
  b64Quads kept

/-- The standard base64 alphabet. -/
def b64Alphabet : PyStr := pstr "ABCDEFGHIJKLMNOPQRSTUVWXYZabcdefghijklmnopqrstuvwxyz0123456789+/"

/-- Character for a 6-bit value. -/
def b64EncChar (n : Nat) : Char := b64Alphabet.getD n 'A'

/-- `base64.b64encode` with the standard alphabet, as a `str`. -/
def b64EncodeStd : PyBytes → PyStr
  | [] => []
  | [x] => [b64EncChar (x / 4), b64EncChar ((x % 4) * 16), '=', '=']
  | [x, y] => [b64EncChar (x / 4), b64EncChar ((x % 4) * 16 + y / 16),
      b64EncChar ((y % 16) * 4), '=']
  | x :: y :: z :: rest =>
      [b64EncChar (x / 4), b64EncChar ((x % 4) * 16 + y / 16),
       b64EncChar ((y % 16) * 4 + z / 64), b64EncChar (z % 64)] ++ b64EncodeStd rest

/-! ### UTF-8 (`str.encode` / `bytes.decode`) -/

/-- UTF-8 encoding of one unicode scalar value. -/
def utf8EncodeChar (n : Nat) : PyBytes :=
  if n < 0x80 then [n]
  else if n < 0x800 then [0xC0 + n / 64, 0x80 + n % 64]
  else if n < 0x10000 then [0xE0 + n / 4096, 0x80 + (n / 64) % 64, 0x80 + n % 64]
  else [0xF0 + n / 262144, 0x80 + (n / 4096) % 64, 0x80 + (n / 64) % 64, 0x80 + n % 64]

/-- Python `str.encode("utf-8")`. -/
def utf8Encode (s : PyStr) : PyBytes := (s.map (fun c => utf8EncodeChar c.toNat)).flatten

/-- Is a byte a UTF-8 continuation byte? -/
def isCont (b : Nat) : Bool := 0x80 ≤ b ∧ b ≤ 0xBF

/-- Python `bytes.decode("utf-8")` (strict): `UnicodeDecodeError` on any
malformed, overlong or surrogate sequence. Structural recursion on a fuel
bound (one byte consumed per step, so the length suffices). -/
def utf8DecodeStrictF : Nat → PyBytes → Except PyExn PyStr
  | _, [] => .ok []
  | 0, _ :: _ => .error .unicodeDecodeError
  | fuel + 1, b0 :: rest =>
      if b0 < 0x80 then
        (utf8DecodeStrictF fuel rest).map (fun t => Char.ofNat b0 :: t)
      else if 0xC2 ≤ b0 ∧ b0 ≤ 0xDF then
        match rest with
        | b1 :: rest2 =>
            if isCont b1 then
              (utf8DecodeStrictF fuel rest2).map
                (fun t => Char.ofNat ((b0 - 0xC0) * 64 + (b1 - 0x80)) :: t)
            else .error .unicodeDecodeError
        | _ => .error .unicodeDecodeError
      else if 0xE0 ≤ b0 ∧ b0 ≤ 0xEF then
        match rest with
        | b1 :: b2 :: rest2 =>
            if (if b0 = 0xE0 then 0xA0 ≤ b1 ∧ b1 ≤ 0xBF
                else if b0 = 0xED then 0x80 ≤ b1 ∧ b1 ≤ 0x9F
                else isCont b1) ∧ isCont b2 then
              (utf8DecodeStrictF fuel rest2).map
                (fun t => Char.ofNat ((b0 - 0xE0) * 4096 + (b1 - 0x80) * 64 + (b2 - 0x80)) :: t)
            else .error .unicodeDecodeError
        | _ => .error .unicodeDecodeError
      else if 0xF0 ≤ b0 ∧ b0 ≤ 0xF4 then
        match rest with
        | b1 :: b2 :: b3 :: rest2 =>
            if (if b0 = 0xF0 then 0x90 ≤ b1 ∧ b1 ≤ 0xBF
                else if b0 = 0xF4 then 0x80 ≤ b1 ∧ b1 ≤ 0x8F
                else isCont b1) ∧ isCont b2 ∧ isCont b3 then
              (utf8DecodeStrictF fuel rest2).map
                (fun t => Char.ofNat
                  ((b0 - 0xF0) * 262144 + (b1 - 0x80) * 4096 + (b2 - 0x80) * 64 + (b3 - 0x80)) :: t)
            else .error .unicodeDecodeError
        | _ => .error .unicodeDecodeError
      else .error .unicodeDecodeError

/-- Python `bytes.decode("utf-8")` (strict). -/
def utf8DecodeStrict (l : PyBytes) : Except PyExn PyStr := utf8DecodeStrictF l.length l

/-- Python `bytes.decode("utf-8", errors="replace")`: total, substituting
U+FFFD for malformed input. Structural recursion on a fuel bound. -/
def utf8DecodeReplaceF : Nat → PyBytes → PyStr
  | _, [] => []
  | 0, _ :: _ => []
  | fuel + 1, b0 :: rest =>
      if b0 < 0x80 then Char.ofNat b0 :: utf8DecodeReplaceF fuel rest
      else if 0xC2 ≤ b0 ∧ b0 ≤ 0xDF then
        match rest with
        | b1 :: rest2 =>
            if isCont b1 then
              Char.ofNat ((b0 - 0xC0) * 64 + (b1 - 0x80)) :: utf8DecodeReplaceF fuel rest2
            else Char.ofNat 0xFFFD :: utf8DecodeReplaceF fuel (b1 :: rest2)
        | _ => [Char.ofNat 0xFFFD]
      else if 0xE0 ≤ b0 ∧ b0 ≤ 0xEF then
        match rest with
        | b1 :: b2 :: rest2 =>
            if (if b0 = 0xE0 then 0xA0 ≤ b1 ∧ b1 ≤ 0xBF
                else if b0 = 0xED then 0x80 ≤ b1 ∧ b1 ≤ 0x9F
                else isCont b1) ∧ isCont b2 then
              Char.ofNat ((b0 - 0xE0) * 4096 + (b1 - 0x80) * 64 + (b2 - 0x80)) ::
                utf8DecodeReplaceF fuel rest2
            else Char.ofNat 0xFFFD :: utf8DecodeReplaceF fuel (b1 :: b2 :: rest2)
        | other => Char.ofNat 0xFFFD :: utf8DecodeReplaceF fuel other
      else if 0xF0 ≤ b0 ∧ b0 ≤ 0xF4 then
        match rest with
        | b1 :: b2 :: b3 :: rest2 =>
            if (if b0 = 0xF0 then 0x90 ≤ b1 ∧ b1 ≤ 0xBF
                else if b0 = 0xF4 then 0x80 ≤ b1 ∧ b1 ≤ 0x8F
                else isCont b1) ∧ isCont b2 ∧ isCont b3 then
              Char.ofNat
                ((b0 - 0xF0) * 262144 + (b1 - 0x80) * 4096 + (b2 - 0x80) * 64 + (b3 - 0x80)) ::
                utf8DecodeReplaceF fuel rest2
            else Char.ofNat 0xFFFD :: utf8DecodeReplaceF fuel (b1 :: b2 :: b3 :: rest2)
        | other => Char.ofNat 0xFFFD :: utf8DecodeReplaceF fuel other
      else Char.ofNat 0xFFFD :: utf8DecodeReplaceF fuel rest

/-- Python `bytes.decode("utf-8", errors="replace")`. -/
def utf8DecodeReplace (l : PyBytes) : PyStr := utf8DecodeReplaceF l.length l

/-! ### SHA-256 and HMAC (`hashlib.sha256`, `hmac.new(...).digest()`)

Word arithmetic is done on `Nat` with explicit reduction modulo `2 ^ 32`.
-/

/-- Reduce modulo `2 ^ 32`. -/
def m32 (x : Nat) : Nat := x % 4294967296

/-- Right rotation of a 32-bit word. -/
def rotr32 (n x : Nat) : Nat := m32 ((x >>> n) ||| (x <<< (32 - n)))

/-- The 64 SHA-256 round constants. -/
def sha256K : List Nat :=
  [1116352408, 1899447441, 3049323471, 3921009573, 961987163,
   1508970993, 2453635748, 2870763221, 3624381080, 310598401,
   607225278, 1426881987, 1925078388, 2162078206, 2614888103,
   3248222580, 3835390401, 4022224774, 264347078, 604807628,
   770255983, 1249150122, 1555081692, 1996064986, 2554220882,
   2821834349, 2952996808, 3210313671, 3336571891, 3584528711,
   113926993, 338241895, 666307205, 773529912, 1294757372,
   1396182291, 1695183700, 1986661051, 2177026350, 2456956037,
   2730485921, 2820302411, 3259730800, 3345764771, 3516065817,
   3600352804, 4094571909, 275423344, 430227734, 506948616,
   659060556, 883997877, 958139571, 1322822218, 1537002063,
   1747873779, 1955562222, 2024104815, 2227730452, 2361852424,
   2428436474, 2756734187, 3204031479, 3329325298]

/-- The SHA-256 initial hash value. -/
def sha256H0 : List Nat :=
  [1779033703, 3144134277, 1013904242, 2773480762,
   1359893119, 2600822924, 528734635, 1541459225]

/-- Big-endian 8-byte encoding of a length in bits. -/
def be8 (n : Nat) : PyBytes :=
  [n >>> 56 % 256, n >>> 48 % 256, n >>> 40 % 256, n >>> 32 % 256,
   n >>> 24 % 256, n >>> 16 % 256, n >>> 8 % 256, n % 256]

/-- SHA-256 message padding. -/
def sha256Pad (msg : PyBytes) : PyBytes :=
  let l := msg.length
  let zeros := (119 - l % 64) % 64
  msg ++ 0x80 :: List.replicate zeros 0 ++ be8 (8 * l)

/-- Split a byte sequence into 64-byte blocks (structural recursion on a
fuel bound; each step consumes at least one byte). -/
def toBlocksF : Nat → PyBytes → List PyBytes
  | _, [] => []
  | 0, _ :: _ => []
  | fuel + 1, h :: rest => (h :: rest).take 64 :: toBlocksF fuel (rest.drop 63)

/-- Split a byte sequence into 64-byte blocks. -/
def toBlocks (l : PyBytes) : List PyBytes := toBlocksF l.length l

/-- Big-endian 32-bit words of a block. -/
def bytesToWords : PyBytes → List Nat
  | a :: b :: c :: d :: rest => (((a * 256 + b) * 256 + c) * 256 + d) :: bytesToWords rest
  | _ => []

/-- Big-endian bytes of one 32-bit word. -/
def wordToBytes (w : Nat) : PyBytes :=
  [w >>> 24 % 256, w >>> 16 % 256, w >>> 8 % 256, w % 256]

/-- Extend the 16 block words to the 64-entry message schedule. -/
def sha256Sched (w : List Nat) : Nat → List Nat
  | 0 => w
  | k + 1 =>
      let i := w.length
      let w15 := w.getD (i - 15) 0
      let w2 := w.getD (i - 2) 0
      let s0 := (rotr32 7 w15) ^^^ (rotr32 18 w15) ^^^ (w15 >>> 3)
      let s1 := (rotr32 17 w2) ^^^ (rotr32 19 w2) ^^^ (w2 >>> 10)
      sha256Sched (w ++ [m32 (w.getD (i - 16) 0 + s0 + w.getD (i - 7) 0 + s1)]) k

/-- One SHA-256 compression round. -/
def sha256Round (st : Nat × Nat × Nat × Nat × Nat × Nat × Nat × Nat) (kw : Nat × Nat) :
    Nat × Nat × Nat × Nat × Nat × Nat × Nat × Nat :=
  let (a, b, c, d, e, f, g, h) := st
  let S1 := (rotr32 6 e) ^^^ (rotr32 11 e) ^^^ (rotr32 25 e)
  let ch := (e &&& f) ^^^ ((e ^^^ 4294967295) &&& g)
  let t1 := m32 (h + S1 + ch + kw.1 + kw.2)
  let S0 := (rotr32 2 a) ^^^ (rotr32 13 a) ^^^ (rotr32 22 a)
  let mj := (a &&& b) ^^^ (a &&& c) ^^^ (b &&& c)
  let t2 := m32 (S0 + mj)
  (m32 (t1 + t2), a, b, c, m32 (d + t1), e, f, g)

/-- SHA-256 compression of one 64-byte block into the running hash. -/
def sha256Compress (h : List Nat) (block : PyBytes) : List Nat :=
  let w := sha256Sched (bytesToWords block) 48
  let init := (h.getD 0 0, h.getD 1 0, h.getD 2 0, h.getD 3 0,
               h.getD 4 0, h.getD 5 0, h.getD 6 0, h.getD 7 0)
  let (a, b, c, d, e, f, g, hh) := (sha256K.zip w).foldl sha256Round init
  [m32 (h.getD 0 0 + a), m32 (h.getD 1 0 + b), m32 (h.getD 2 0 + c),
   m32 (h.getD 3 0 + d), m32 (h.getD 4 0 + e), m32 (h.getD 5 0 + f),
   m32 (h.getD 6 0 + g), m32 (h.getD 7 0 + hh)]

/-- SHA-256 digest of a byte sequence. -/
def sha256 (msg : PyBytes) : PyBytes :=
  (((toBlocks (sha256Pad msg)).foldl sha256Compress sha256H0).map wordToBytes).flatten

/-- HMAC-SHA256 (`hmac.new(key, msg, hashlib.sha256).digest()`). -/
def hmacSha256 (key msg : PyBytes) : PyBytes :=
  let k0 := if key.length > 64 then sha256 key else key
  let kp := k0 ++ List.replicate (64 - k0.length) 0
  let ipadded := kp.map (fun b => b ^^^ 0x36)
  let opadded := kp.map (fun b => b ^^^ 0x5C)
  sha256 (opadded ++ sha256 (ipadded ++ msg))

/-! ### The canonical message model (models.py `GmailMessage`) -/

/-- The validated message record. `timestampMs` carries the
epoch-millisecond value behind the `message_timestamp` datetime field. -/
structure GmailMessage where
  connection_id : PyStr
  connection_nano_id : PyStr
  trigger_id : PyStr
  trigger_nano_id : PyStr
  user_id : PyStr
  id : PyStr
  thread_id : PyStr
  sender : PyStr
  «to» : PyStr
  subject : PyStr
  timestampMs : Int
  labels : List PyStr
  text_body : Option PyStr
  html_body : Option PyStr
  deriving DecidableEq, Repr

/-- The error message of the `ValueError` raised on a missing or falsy
`data` key. -/
def missingDataMsg : PyStr := pstr "Webhook payload must contain a data key."

/-- The body-extraction loop over the `parts` list: per part, a truthy
body `data` string is urlsafe-base64-decoded; a `binascii.Error` is
caught and that part is skipped; the decoded text is routed by MIME type. -/
def partLoop : List JVal → Option PyStr × Option PyStr →
    Except PyExn (Option PyStr × Option PyStr)
  | [], acc => .ok acc
  | p :: rest, (tb, hb) => do
      let mime ← dget p (pstr "mimeType")
      let bodyObj ← dgetD p (pstr "body") (.jobj [])
      let bd ← dget bodyObj (pstr "data")
      if pyTruthyO bd then do
        let s ← asStrB (bd.getD .jnull)
        match urlsafeB64Decode s with
        | none => partLoop rest (tb, hb)
        | some bytes =>
            let decoded := utf8DecodeReplace bytes
            if jeqStr mime (pstr "text/plain") then partLoop rest (some decoded, hb)
            else if jeqStr mime (pstr "text/html") then partLoop rest (tb, some decoded)
            else partLoop rest (tb, hb)
      else partLoop rest (tb, hb)

/-- The header-extraction loop: case-insensitive scan for `from`, `to`
and `subject`, each later match overwriting the accumulator. -/
def headerLoop : List JVal → JVal × JVal × JVal → Except PyExn (JVal × JVal × JVal)
  | [], acc => .ok acc
  | h :: rest, (s, t, u) => do
      let nameRaw ← dgetD h (pstr "name") (.jstr [])
      let nameStr ← asStr nameRaw
      let v ← dgetD h (pstr "value") (.jstr [])
      let name := pyLower nameStr
      if name = pstr "from" then headerLoop rest (v, t, u)
      else if name = pstr "to" then headerLoop rest (s, v, u)
      else if name = pstr "subject" then headerLoop rest (s, t, v)
      else headerLoop rest (s, t, u)

/-- Body extraction: when the nested `payload` exposes a truthy `parts`
list, run the part loop; otherwise fall back to the top-level body `data`
field, decoded as the plain-text body, with a `binascii.Error` caught and
logged. -/
def extractBodies (pl : JVal) : Except PyExn (Option PyStr × Option PyStr) := do
  let partsJ ← dgetD pl (pstr "parts") (.jarr [])
  if pyTruthy partsJ then do
    let parts ← asList partsJ
    partLoop parts (none, none)
  else do
    let bodyObj ← dgetD pl (pstr "body") (.jobj [])
    let bd ← dget bodyObj (pstr "data")
    if pyTruthyO bd then do
      let s ← asStrB (bd.getD .jnull)
      match urlsafeB64Decode s with
      | none => pure ((none : Option PyStr), (none : Option PyStr))
      | some bytes => pure (some (utf8DecodeReplace bytes), none)
    else pure (none, none)

/-- Header extraction: read the `headers` list off the nested `payload`
and run the header loop from empty strings. -/
def extractHeaders (pl : JVal) : Except PyExn (JVal × JVal × JVal) := do
  let headersJ ← dgetD pl (pstr "headers") (.jarr [])
  let hs ← asList headersJ
  headerLoop hs (.jstr [], .jstr [], .jstr [])

/-- Timestamp extraction: a truthy `internalDate` is converted with
`int(...)`; otherwise the current process time is used. -/
def extractTimestamp (message_data : JVal) (now : Int) : Except PyExn Int := do
  let idateO ← dget message_data (pstr "internalDate")
  let internal_date := idateO.getD (.jnum 0)
  if pyTruthy internal_date then pyInt internal_date
  else pure now

/-- Construction of the message record: every metadata and identity field
is read with `.get(key, "")` — an empty-string default — and passed
through pydantic string validation. -/
def buildMessage (message_data : JVal) (bodies : Option PyStr × Option PyStr)
    (senderJ toJ subjectJ : JVal) (ts : Int) : Except PyExn GmailMessage := do
  let connection_id ← dgetD message_data (pstr "connection_id") (.jstr []) >>= validateStr
  let connection_nano_id ←
    dgetD message_data (pstr "connection_nano_id") (.jstr []) >>= validateStr
  let trigger_id ← dgetD message_data (pstr "trigger_id") (.jstr []) >>= validateStr
  let trigger_nano_id ← dgetD message_data (pstr "trigger_nano_id") (.jstr []) >>= validateStr
  let user_id ← dgetD message_data (pstr "user_id") (.jstr []) >>= validateStr
  let mid ← dgetD message_data (pstr "id") (.jstr []) >>= validateStr
  let thread_id ← dgetD message_data (pstr "threadId") (.jstr []) >>= validateStr
  let sender ← validateStr senderJ
  let toV ← validateStr toJ
  let subject ← validateStr subjectJ
  let labelsJ ← dgetD message_data (pstr "labelIds") (.jarr [])
  let labels ← validateStrList labelsJ
  pure { connection_id, connection_nano_id, trigger_id, trigger_nano_id, user_id,
         id := mid, thread_id, sender, «to» := toV, subject, timestampMs := ts, labels,
         text_body := bodies.1, html_body := bodies.2 }

/-- Processing of a truthy `data` object, in source order: body parsing,
header extraction, timestamp, then validated construction. The nested
`payload` object is read with `.get("payload", {})`. -/
def normalizeData (message_data : JVal) (now : Int) : Except PyExn GmailMessage := do
  let pl ← dgetD message_data (pstr "payload") (.jobj [])
  let bodies ← extractBodies pl
  let (senderJ, toJ, subjectJ) ← extractHeaders pl
  let ts ← extractTimestamp message_data now
  buildMessage message_data bodies senderJ toJ subjectJ ts

/-- `GmailMessage.from_composio_payload`: parse a raw Composio webhook
payload into a validated message. `now` is the current process time in
epoch milliseconds (`datetime.utcnow()`), used when `internalDate` is
absent or falsy. A missing or falsy `data` key raises the missing-data
`ValueError`. -/
def from_composio_payload (payload : JVal) (now : Int) : Except PyExn GmailMessage := do
  let md ← dget payload (pstr "data")
  if !pyTruthyO md then throw (.valueError missingDataMsg)
  else normalizeData (md.getD .jnull) now

/-! ### Signature verification (webhook.py `verify_webhook_signature`,
inlined identically in the main.py handler) -/

/-- The webhook-relevant request headers; `none` models an absent header,
looked up with `request.headers.get(name, "")`. -/
structure Headers where
  webhookSignature : Option PyStr
  webhookTimestamp : Option PyStr
  webhookId : Option PyStr

/-- Split a string at its first comma (`split(",", 1)`), `none` when no
comma occurs. -/
def splitOnceComma : PyStr → Option (PyStr × PyStr)
  | [] => none
  | c :: rest =>
      if c = ',' then some ([], rest)
      else (splitOnceComma rest).map (fun p => (c :: p.1, p.2))

/-- `verify_webhook_signature`: skip when the secret or the signature
header is falsy; otherwise require a `version,signature` header, rebuild
the signed content `webhook_id.timestamp.body`, compare against the
base64 of the HMAC-SHA256 digest, and raise HTTP 401 on mismatch.
Returns the body and webhook id on success. -/
def verify_webhook_signature (secret : PyStr) (hdrs : Headers) (body : PyBytes) :
    Except PyExn (PyBytes × PyStr) := do
  let signature_header := hdrs.webhookSignature.getD []
  let timestamp := hdrs.webhookTimestamp.getD []
  let webhook_id := hdrs.webhookId.getD []
  if !secret.isEmpty && !signature_header.isEmpty then
    match splitOnceComma signature_header with
    | none => throw (.httpException 401 (pstr "Invalid signature format"))
    | some (_version, signature) => do
        let bodyStr ← utf8DecodeStrict body
        let signed_content := webhook_id ++ pstr "." ++ timestamp ++ pstr "." ++ bodyStr
        let expected := hmacSha256 (utf8Encode secret) (utf8Encode signed_content)
        let expectedB64 := b64EncodeStd expected
        if signature = expectedB64 then pure (body, webhook_id)
        else throw (.httpException 401 (pstr "Invalid webhook signature"))
  else pure (body, webhook_id)

/-! ### Message processing (email_processor.py) -/

/-- Results of the external calls `process_gmail_message` makes:
the Composio tool fetch and the agent run. An `error` value models that
call raising. Tools are represented by their slugs. -/
structure ProcEnv where
  toolsResult : Except PyExn (List PyStr)
  runResult : Except PyExn PyStr

/-- Observable external actions of one `process_gmail_message` run. -/
inductive PEvent where
  | toolsGet (user_id : PyStr) : PEvent
  | agentRun (prompt : PyStr) : PEvent
  deriving DecidableEq, Repr

/-- Python `a or b` on strings / optional strings: the left value unless
it is falsy. -/
def orStr (a : Option PyStr) (b : PyStr) : PyStr :=
  match a with
  | some s => if s.isEmpty then b else s
  | none => b

/-- The `try` block body of `process_gmail_message`, before the
catch-all handler: early failure returns for an empty `user_id`,
`connection_id` or tool list, then the agent invocation. The second
component records the external actions taken. -/
def processBody (m : GmailMessage) (user_filter : PyStr) (env : ProcEnv) :
    Except PyExn Bool × List PEvent :=
  if m.user_id.isEmpty then (.ok false, [])
  else if m.connection_id.isEmpty then (.ok false, [])
  else
    match env.toolsResult with
    | .error e => (.error e, [.toolsGet m.user_id])
    | .ok tools =>
        if tools.isEmpty then (.ok false, [.toolsGet m.user_id])
        else
          let email_content := orStr m.text_body (orStr m.html_body (pstr "No content available"))
          let prompt_details :=
            user_filter ++ pstr "\n\n## Email\n" ++ email_content ++
              pstr "\n## Message ID\n" ++ m.id
          match env.runResult with
          | .error e => (.error e, [.toolsGet m.user_id, .agentRun prompt_details])
          | .ok _ => (.ok true, [.toolsGet m.user_id, .agentRun prompt_details])

/-- `process_gmail_message`: the `try` body with its catch-all exception
handler, which converts any raised exception into a `False` outcome. -/
def process_gmail_message (m : GmailMessage) (user_filter : PyStr) (env : ProcEnv) :
    Bool × List PEvent :=
  match processBody m user_filter env with
  | (.ok b, tr) => (b, tr)
  | (.error _, tr) => (false, tr)

/-- `get_user_prompt`: Supabase lookup of the stored prompt row for a
user. `rows` is the result of the query (`error` models the query
raising). Returns the stored `prompt` value of the first row when the
result list is truthy, the default otherwise; every raised exception is
caught and yields the default. -/
def get_user_prompt (user_id : PyStr) (default_prompt : PyStr)
    (rows : Except PyExn (List JVal)) : JVal :=
  match rows with
  | .error _ => .jstr default_prompt
  | .ok data =>
      match data with
      | [] => .jstr default_prompt
      | r :: _ =>
          match jsub r (pstr "prompt") with
          | .ok v => v
          | .error _ => .jstr default_prompt

/-! ### The webhook handler (main.py `listen_webhooks`) -/

/-- Substring test (Python `needle in hay`). -/
def startsWithStr : PyStr → PyStr → Bool
  | _, [] => true
  | [], _ :: _ => false
  | c :: cs, n :: ns => c = n && startsWithStr cs ns

/-- Python `needle in hay` on strings. -/
def containsStr (hay needle : PyStr) : Bool :=
  match hay with
  | [] => needle.isEmpty
  | _ :: rest => startsWithStr hay needle || containsStr rest needle

/-- The JSON body of the webhook acknowledgment response. -/
structure WebhookResponse where
  status : PyStr
  webhook_id : PyStr
  deriving DecidableEq, Repr

/-- Observable actions of one `listen_webhooks` run: the attempt to
normalize a Gmail payload, and the dispatch of a background processing
task with the message and resolved user prompt. -/
inductive HEvent where
  | normAttempt : HEvent
  | task (msg : GmailMessage) (user_prompt : JVal) : HEvent

/-- The inline user-prompt resolution of the handler: start from the
module-global prompt (falling back to the literal default when falsy),
then, for a truthy `user_id`, overwrite with the `prompt` value
of the first stored row under a catch-all exception handler. -/
def resolveUserPrompt (m : GmailMessage) (promptGlobal : JVal)
    (rows : Except PyExn (List JVal)) : JVal :=
  let d := if pyTruthy promptGlobal then promptGlobal
           else .jstr (pstr "Default email processing prompt")
  if m.user_id.isEmpty then d
  else
    match rows with
    | .error _ => d
    | .ok data =>
        match data with
        | [] => d
        | r :: _ =>
            match jsub r (pstr "prompt") with
            | .ok v => v
            | .error _ => d

/-- The `try` block of the handler for a Gmail event: normalize the payload,
resolve the user prompt and queue the background task; any exception is
caught and swallowed, leaving only the attempted normalization visible. -/
def gmailBranch (webhook_data promptGlobal : JVal) (rows : Except PyExn (List JVal))
    (now : Int) : List HEvent :=
  match from_composio_payload webhook_data now with
  | .error _ => [.normAttempt]
  | .ok m => [.normAttempt, .task m (resolveUserPrompt m promptGlobal rows)]

/-- `listen_webhooks`: verify the signature (the code inlined in main.py
is identical to `verify_webhook_signature`), test whether the declared
event type is `gmail_new_message` or contains `gmail` case-insensitively,
and in that case run the Gmail branch; always acknowledge with
`{"status": "received", "webhook_id": ...}`. `webhook_data` is the parsed
JSON body, `promptGlobal` the module-global prompt, `rows` the result of
the per-user prompt query, `now` the process time. -/
def listen_webhooks (secret : PyStr) (hdrs : Headers) (body : PyBytes)
    (webhook_data promptGlobal : JVal) (rows : Except PyExn (List JVal)) (now : Int) :
    Except PyExn (WebhookResponse × List HEvent) := do
  let r ← verify_webhook_signature secret hdrs body
  let webhook_id := r.2
  let tO ← dget webhook_data (pstr "type")
  let isGmail ←
    if jeqStr tO (pstr "gmail_new_message") then pure true
    else do
      let tStr ← asStr (tO.getD (.jstr []))
      pure (containsStr (pyLower tStr) (pstr "gmail"))
  let events := if isGmail then gmailBranch webhook_data promptGlobal rows now else []
  pure ({ status := pstr "received", webhook_id }, events)

/-! ## Reduction lemmas -/

/-- Bind of an `ok` value reduces. -/
theorem ebind_ok {α β : Type} (a : α) (f : α → Except PyExn β) :
    (Except.ok a : Except PyExn α) >>= f = f a := rfl

/-- Bind of an `error` value reduces. -/
theorem ebind_err {α β : Type} (e : PyExn) (f : α → Except PyExn β) :
    (Except.error e : Except PyExn α) >>= f = Except.error e := rfl

/-- `from_composio_payload` on an object payload, characterized by the
lookup of its `data` key. -/
theorem from_composio_payload_jobj (fs : List (PyStr × JVal)) (now : Int) :
    from_composio_payload (.jobj fs) now
      = if !pyTruthyO (jfind fs (pstr "data")) then .error (.valueError missingDataMsg)
        else normalizeData ((jfind fs (pstr "data")).getD .jnull) now := rfl

/-! ## Claims -/

/-- Claim C1, counterexample: a payload whose `data` object carries only
`id` and `threadId` — every routing/metadata field absent — is not
rejected: normalization succeeds and produces a message whose metadata
fields are the empty string. -/
theorem claim_C1_counterexample :
    jfind [(pstr "id", JVal.jstr (pstr "m1")), (pstr "threadId", JVal.jstr (pstr "t1"))]
        (pstr "connection_id") = none
    ∧ from_composio_payload
        (.jobj [(pstr "data",
          .jobj [(pstr "id", .jstr (pstr "m1")), (pstr "threadId", .jstr (pstr "t1"))])]) 0
      = .ok { connection_id := [], connection_nano_id := [], trigger_id := [],
              trigger_nano_id := [], user_id := [], id := pstr "m1",
              thread_id := pstr "t1", sender := [], «to» := [], subject := [],
              timestampMs := 0, labels := [], text_body := none, html_body := none } :=
  ⟨rfl, rfl⟩

/-- Claim C1, amended: absence of the routing/metadata fields (or of the
identity fields) is not a validation failure — `from_composio_payload`
substitutes the empty string for each absent field and produces a
message. -/
theorem claim_C1_amended (i t : PyStr) (now : Int) :
    from_composio_payload
        (.jobj [(pstr "data",
          .jobj [(pstr "id", .jstr i), (pstr "threadId", .jstr t)])]) now
      = .ok { connection_id := [], connection_nano_id := [], trigger_id := [],
              trigger_nano_id := [], user_id := [], id := i, thread_id := t,
              sender := [], «to» := [], subject := [], timestampMs := now,
              labels := [], text_body := none, html_body := none }
    ∧ from_composio_payload
        (.jobj [(pstr "data", .jobj [(pstr "historyId", .jnum 5)])]) now
      = .ok { connection_id := [], connection_nano_id := [], trigger_id := [],
              trigger_nano_id := [], user_id := [], id := [], thread_id := [],
              sender := [], «to» := [], subject := [], timestampMs := now,
              labels := [], text_body := none, html_body := none } :=
  ⟨rfl, rfl⟩

/-- Claim C9: a payload whose `data` key is present but falsy (an empty
object, or any other falsy value) is rejected with exactly the same
missing-data `ValueError` as a payload with no `data` key at all. -/
theorem claim_C9 (fs : List (PyStr × JVal)) (v : JVal) (now : Int)
    (hpresent : jfind fs (pstr "data") = some v) (hfalsy : pyTruthy v = false) :
    from_composio_payload (.jobj fs) now = .error (.valueError missingDataMsg)
    ∧ ∀ gs : List (PyStr × JVal), jfind gs (pstr "data") = none →
        from_composio_payload (.jobj gs) now = .error (.valueError missingDataMsg) := by
  constructor
  · rw [from_composio_payload_jobj, hpresent]
    simp [pyTruthyO, hfalsy]
  · intro gs hgs
    rw [from_composio_payload_jobj, hgs]
    simp [pyTruthyO]

/-- Claim C9, witness at `data = {}`. -/
theorem claim_C9_witness :
    from_composio_payload (.jobj [(pstr "data", .jobj [])]) 0
      = .error (.valueError missingDataMsg) :=
  (claim_C9 [(pstr "data", .jobj [])] (.jobj []) 0 rfl rfl).1

/-- A `{name, value}` header object as it appears in provider payloads. -/
def mkHeader (p : PyStr × PyStr) : JVal :=
  .jobj [(pstr "name", .jstr p.1), (pstr "value", .jstr p.2)]

/-- The value of the last header whose lowercased name equals `key`,
starting from default `d` — the policy the header loop implements. -/
def lastMatch (key : PyStr) : List (PyStr × PyStr) → PyStr → PyStr
  | [], d => d
  | (n, v) :: rest, d =>
      if pyLower n = key then lastMatch key rest v else lastMatch key rest d

/-- One step of the header loop over a well-formed header object. -/
theorem headerLoop_cons (n v : PyStr) (rest : List JVal) (s t u : JVal) :
    headerLoop (mkHeader (n, v) :: rest) (s, t, u)
      = if pyLower n = pstr "from" then headerLoop rest (.jstr v, t, u)
        else if pyLower n = pstr "to" then headerLoop rest (s, .jstr v, u)
        else if pyLower n = pstr "subject" then headerLoop rest (s, t, .jstr v)
        else headerLoop rest (s, t, u) := rfl

/-- The three recognized header names are pairwise distinct. -/
theorem headerKeysNe :
    pstr "from" ≠ pstr "to" ∧ pstr "to" ≠ pstr "from"
    ∧ pstr "from" ≠ pstr "subject" ∧ pstr "subject" ≠ pstr "from"
    ∧ pstr "to" ≠ pstr "subject" ∧ pstr "subject" ≠ pstr "to" := by decide

/-- The header loop over well-formed headers computes, for each of the
three recognized names, the value of the last matching header. -/
theorem headerLoop_mk (ps : List (PyStr × PyStr)) (s t u : PyStr) :
    headerLoop (ps.map mkHeader) (.jstr s, .jstr t, .jstr u)
      = .ok (.jstr (lastMatch (pstr "from") ps s), .jstr (lastMatch (pstr "to") ps t),
             .jstr (lastMatch (pstr "subject") ps u)) := by
  induction ps generalizing s t u with
  | nil => rfl
  | cons p rest ih =>
      obtain ⟨n, v⟩ := p
      rw [List.map_cons, headerLoop_cons]
      obtain ⟨k1, k2, k3, k4, k5, k6⟩ := headerKeysNe
      by_cases h1 : pyLower n = pstr "from"
      · simp [lastMatch, h1, ih, k1, k2, k3, k4, k5, k6]
      · by_cases h2 : pyLower n = pstr "to"
        · simp [lastMatch, h1, h2, ih, k1, k2, k3, k4, k5, k6]
        · by_cases h3 : pyLower n = pstr "subject"
          · simp [lastMatch, h1, h2, h3, ih, k1, k2, k3, k4, k5, k6]
          · simp [lastMatch, h1, h2, h3, ih, k1, k2, k3, k4, k5, k6]

/-- `normalizeData` on a data object that carries only headers, given the
header-loop result. -/
theorem normalizeData_headers_only (hs : List JVal) (now : Int) (sj tj uj : PyStr)
    (h : headerLoop hs (.jstr [], .jstr [], .jstr []) = .ok (.jstr sj, .jstr tj, .jstr uj)) :
    normalizeData (.jobj [(pstr "payload", .jobj [(pstr "headers", .jarr hs)])]) now
      = .ok { connection_id := [], connection_nano_id := [], trigger_id := [],
              trigger_nano_id := [], user_id := [], id := [], thread_id := [],
              sender := sj, «to» := tj, subject := uj, timestampMs := now,
              labels := [], text_body := none, html_body := none } := by
  have h0 : normalizeData (.jobj [(pstr "payload", .jobj [(pstr "headers", .jarr hs)])]) now
      = (headerLoop hs (.jstr [], .jstr [], .jstr [])) >>= (fun r =>
          buildMessage (.jobj [(pstr "payload", .jobj [(pstr "headers", .jarr hs)])])
            (none, none) r.1 r.2.1 r.2.2 now) := rfl
  rw [h0, h]
  rfl

/-- Claim C2, counterexample: with two `From` headers, the resulting
sender is the value of the second (last) one, not of the first as the
claim states. -/
theorem claim_C2_counterexample :
    from_composio_payload
        (.jobj [(pstr "data", .jobj [(pstr "payload", .jobj [(pstr "headers",
          .jarr [mkHeader (pstr "From", pstr "first@x.com"),
                 mkHeader (pstr "from", pstr "second@x.com")])])])]) 0
      = .ok { connection_id := [], connection_nano_id := [], trigger_id := [],
              trigger_nano_id := [], user_id := [], id := [], thread_id := [],
              sender := pstr "second@x.com", «to» := [], subject := [],
              timestampMs := 0, labels := [], text_body := none, html_body := none }
    ∧ pstr "second@x.com" ≠ pstr "first@x.com" :=
  ⟨rfl, by decide⟩

/-- Claim C2, amended: for well-formed header lists the extracted
`sender`, `to` and `subject` are each the value of the **last** header
with that case-insensitive name (last-seen-wins, deterministically),
defaulting to the empty string. -/
theorem claim_C2_amended (ps : List (PyStr × PyStr)) (now : Int) :
    from_composio_payload
        (.jobj [(pstr "data", .jobj [(pstr "payload", .jobj [(pstr "headers",
          .jarr (ps.map mkHeader))])])]) now
      = .ok { connection_id := [], connection_nano_id := [], trigger_id := [],
              trigger_nano_id := [], user_id := [], id := [], thread_id := [],
              sender := lastMatch (pstr "from") ps [], «to» := lastMatch (pstr "to") ps [],
              subject := lastMatch (pstr "subject") ps [], timestampMs := now,
              labels := [], text_body := none, html_body := none } :=
  normalizeData_headers_only (ps.map mkHeader) now _ _ _ (headerLoop_mk ps [] [] [])

/-- A MIME part object with a `mimeType` and base64 body `data`. -/
def mkPart (mt d : PyStr) : JVal :=
  .jobj [(pstr "mimeType", .jstr mt), (pstr "body", .jobj [(pstr "data", .jstr d)])]

/-- A payload whose data object carries exactly two MIME parts. -/
def twoPartPayload (mt1 d1 mt2 d2 : PyStr) : JVal :=
  .jobj [(pstr "data", .jobj [(pstr "payload", .jobj [(pstr "parts",
    .jarr [mkPart mt1 d1, mkPart mt2 d2])])])]

/-- One step of the part loop over a well-formed part with truthy body
data: decode it, route the text by MIME type, and on a decode failure
keep the accumulator and continue with the remaining parts. -/
theorem partLoop_cons (mt d : PyStr) (rest : List JVal) (tb hb : Option PyStr)
    (hd : d ≠ []) :
    partLoop (mkPart mt d :: rest) (tb, hb)
      = match urlsafeB64Decode d with
        | none => partLoop rest (tb, hb)
        | some bytes =>
            if jeqStr (some (.jstr mt)) (pstr "text/plain") then
              partLoop rest (some (utf8DecodeReplace bytes), hb)
            else if jeqStr (some (.jstr mt)) (pstr "text/html") then
              partLoop rest (tb, some (utf8DecodeReplace bytes))
            else partLoop rest (tb, hb) := by
  cases d with
  | nil => exact absurd rfl hd
  | cons c cs => rfl

/-- Claim C7: in a two-part payload where the body data of one part fails
base64 decoding and the other decodes, normalization succeeds; the field
of the corrupt part is absent and the field of the other part carries its
decoded value — in both arrangements (corrupt plain-text part or corrupt
HTML part). -/
theorem claim_C7 (d1 d2 : PyStr) (bs : PyBytes) (now : Int)
    (h1 : urlsafeB64Decode d1 = none) (h2 : urlsafeB64Decode d2 = some bs)
    (hd2 : d2 ≠ []) :
    from_composio_payload (twoPartPayload (pstr "text/plain") d1 (pstr "text/html") d2) now
      = .ok { connection_id := [], connection_nano_id := [], trigger_id := [],
              trigger_nano_id := [], user_id := [], id := [], thread_id := [],
              sender := [], «to» := [], subject := [], timestampMs := now, labels := [],
              text_body := none, html_body := some (utf8DecodeReplace bs) }
    ∧ from_composio_payload (twoPartPayload (pstr "text/html") d1 (pstr "text/plain") d2) now
      = .ok { connection_id := [], connection_nano_id := [], trigger_id := [],
              trigger_nano_id := [], user_id := [], id := [], thread_id := [],
              sender := [], «to» := [], subject := [], timestampMs := now, labels := [],
              text_body := some (utf8DecodeReplace bs), html_body := none } := by
  have hd1 : d1 ≠ [] := by
    intro h
    rw [h] at h1
    exact absurd h1 (by decide)
  constructor
  · have hb1 : partLoop [mkPart (pstr "text/plain") d1, mkPart (pstr "text/html") d2]
        ((none : Option PyStr), (none : Option PyStr))
        = .ok (none, some (utf8DecodeReplace bs)) := by
      rw [partLoop_cons _ _ _ _ _ hd1, h1, partLoop_cons _ _ _ _ _ hd2, h2]
      rfl
    have h0 : from_composio_payload
          (twoPartPayload (pstr "text/plain") d1 (pstr "text/html") d2) now
        = (partLoop [mkPart (pstr "text/plain") d1, mkPart (pstr "text/html") d2]
            (none, none)) >>= (fun bodies =>
              buildMessage (.jobj [(pstr "payload", .jobj [(pstr "parts",
                .jarr [mkPart (pstr "text/plain") d1, mkPart (pstr "text/html") d2])])])
                bodies (.jstr []) (.jstr []) (.jstr []) now) := rfl
    rw [h0, hb1]
    rfl
  · have hb2 : partLoop [mkPart (pstr "text/html") d1, mkPart (pstr "text/plain") d2]
        ((none : Option PyStr), (none : Option PyStr))
        = .ok (some (utf8DecodeReplace bs), none) := by
      rw [partLoop_cons _ _ _ _ _ hd1, h1, partLoop_cons _ _ _ _ _ hd2, h2]
      rfl
    have h0 : from_composio_payload
          (twoPartPayload (pstr "text/html") d1 (pstr "text/plain") d2) now
        = (partLoop [mkPart (pstr "text/html") d1, mkPart (pstr "text/plain") d2]
            (none, none)) >>= (fun bodies =>
              buildMessage (.jobj [(pstr "payload", .jobj [(pstr "parts",
                .jarr [mkPart (pstr "text/html") d1, mkPart (pstr "text/plain") d2])])])
                bodies (.jstr []) (.jstr []) (.jstr []) now) := rfl
    rw [h0, hb2]
    rfl

/-- Claim C7, witness: a corrupt part (`"A"` is not decodable base64)
next to a part decoding to `hello`. -/
theorem claim_C7_witness :
    from_composio_payload
        (twoPartPayload (pstr "text/plain") (pstr "A") (pstr "text/html") (pstr "aGVsbG8=")) 0
      = .ok { connection_id := [], connection_nano_id := [], trigger_id := [],
              trigger_nano_id := [], user_id := [], id := [], thread_id := [],
              sender := [], «to» := [], subject := [], timestampMs := 0, labels := [],
              text_body := none,
              html_body := some (utf8DecodeReplace [104, 101, 108, 108, 111]) } :=
  (claim_C7 (pstr "A") (pstr "aGVsbG8=") [104, 101, 108, 108, 111] 0 rfl rfl
    (by decide)).1

/-- Splitting at the first comma of `version ++ "," ++ sig` recovers the
two components when the version part is comma-free. -/
theorem splitOnceComma_append (version sig : PyStr) (hv : ',' ∉ version) :
    splitOnceComma (version ++ ',' :: sig) = some (version, sig) := by
  induction version with
  | nil => simp [splitOnceComma]
  | cons c cs ih =>
      have hc : c ≠ ',' := fun h => hv (by rw [h]; exact List.mem_cons_self _ _)
      have hcs : ',' ∉ cs := fun hm => hv (List.mem_cons_of_mem _ hm)
      simp [splitOnceComma, hc, ih hcs]

/-- The verifier, on a nonempty secret and nonempty signature header,
reduced to the split, the strict body decode, and the digest comparison. -/
theorem verify_cons (a : Char) (as : PyStr) (c : Char) (cs : PyStr)
    (tsO widO : Option PyStr) (body : PyBytes) :
    verify_webhook_signature (a :: as) ⟨some (c :: cs), tsO, widO⟩ body
      = match splitOnceComma (c :: cs) with
        | none => .error (.httpException 401 (pstr "Invalid signature format"))
        | some (_v, signature) =>
            (utf8DecodeStrict body) >>= (fun bodyStr =>
              if signature = b64EncodeStd (hmacSha256 (utf8Encode (a :: as))
                  (utf8Encode ((widO.getD []) ++ pstr "." ++ (tsO.getD []) ++ pstr "."
                    ++ bodyStr)))
              then pure (body, widO.getD [])
              else .error (.httpException 401 (pstr "Invalid webhook signature"))) := rfl

/-- Claim C3: for a nonempty secret and a well-formed
`version,signature` header, verification accepts exactly when the
signature equals the standard-base64 HMAC-SHA256 digest of
`webhook_id.timestamp.body` keyed by the secret, and otherwise rejects
with the 401 invalid-signature error. -/
theorem claim_C3 (secret version sig wid ts : PyStr) (body : PyBytes) (bodyStr : PyStr)
    (hsec : secret ≠ []) (hver : ',' ∉ version)
    (hbody : utf8DecodeStrict body = .ok bodyStr) :
    (verify_webhook_signature secret
        ⟨some (version ++ ',' :: sig), some ts, some wid⟩ body = .ok (body, wid)
      ↔ sig = b64EncodeStd (hmacSha256 (utf8Encode secret)
          (utf8Encode (wid ++ pstr "." ++ ts ++ pstr "." ++ bodyStr))))
    ∧ (sig ≠ b64EncodeStd (hmacSha256 (utf8Encode secret)
          (utf8Encode (wid ++ pstr "." ++ ts ++ pstr "." ++ bodyStr))) →
        verify_webhook_signature secret
          ⟨some (version ++ ',' :: sig), some ts, some wid⟩ body
          = .error (.httpException 401 (pstr "Invalid webhook signature"))) := by
  obtain ⟨a, as, rfl⟩ : ∃ a as, secret = a :: as := by
    cases secret with
    | nil => exact absurd rfl hsec
    | cons a as => exact ⟨a, as, rfl⟩
  obtain ⟨c, cs, he⟩ : ∃ c cs, version ++ ',' :: sig = c :: cs := by
    cases version with
    | nil => exact ⟨',', sig, rfl⟩
    | cons x xs => exact ⟨x, xs ++ ',' :: sig, rfl⟩
  have hsplit : splitOnceComma (c :: cs) = some (version, sig) := by
    rw [← he]; exact splitOnceComma_append version sig hver
  rw [he, verify_cons, hsplit]
  simp only [hbody, ebind_ok, Option.getD_some]
  refine ⟨⟨fun hok => ?_, fun hs => by rw [if_pos hs]; rfl⟩, fun hne => by rw [if_neg hne]⟩
  by_contra hne
  rw [if_neg hne] at hok
  exact Except.noConfusion hok

/-- Claim C3, witness at a concrete secret, header and body. -/
theorem claim_C3_witness :
    (verify_webhook_signature (pstr "s")
        ⟨some (pstr "v1" ++ ',' :: pstr "x"), some (pstr "1"), some (pstr "w")⟩
        (utf8Encode (pstr "b")) = .ok (utf8Encode (pstr "b"), pstr "w")
      ↔ pstr "x" = b64EncodeStd (hmacSha256 (utf8Encode (pstr "s"))
          (utf8Encode (pstr "w" ++ pstr "." ++ pstr "1" ++ pstr "." ++ pstr "b"))))
    ∧ (pstr "x" ≠ b64EncodeStd (hmacSha256 (utf8Encode (pstr "s"))
          (utf8Encode (pstr "w" ++ pstr "." ++ pstr "1" ++ pstr "." ++ pstr "b"))) →
        verify_webhook_signature (pstr "s")
          ⟨some (pstr "v1" ++ ',' :: pstr "x"), some (pstr "1"), some (pstr "w")⟩
          (utf8Encode (pstr "b"))
          = .error (.httpException 401 (pstr "Invalid webhook signature"))) :=
  claim_C3 (pstr "s") (pstr "v1") (pstr "x") (pstr "w") (pstr "1")
    (utf8Encode (pstr "b")) (pstr "b") (by decide) (by decide) rfl

/-- Verification is skipped when the secret or the signature header is
falsy. -/
theorem verify_skip (secret : PyStr) (hdrs : Headers) (body : PyBytes)
    (h : secret = [] ∨ hdrs.webhookSignature.getD [] = []) :
    verify_webhook_signature secret hdrs body = .ok (body, hdrs.webhookId.getD []) := by
  rcases h with h | h
  · subst h; rfl
  · simp only [verify_webhook_signature, h, List.isEmpty_nil, Bool.not_true,
      Bool.and_false, Bool.false_eq_true, if_false]
    rfl

/-- Claim C4: with an empty/unset secret, or with an absent (or empty)
signature header, verification is skipped and accepts, returning the body
and webhook id, whatever the signature, timestamp or body content. -/
theorem claim_C4 (secret : PyStr) (hdrs : Headers) (body : PyBytes)
    (h : secret = [] ∨ hdrs.webhookSignature.getD [] = []) :
    verify_webhook_signature secret hdrs body = .ok (body, hdrs.webhookId.getD []) :=
  verify_skip secret hdrs body h

/-- Claim C4, witness: no secret configured, arbitrary signature header. -/
theorem claim_C4_witness :
    verify_webhook_signature []
      ⟨some (pstr "v1,garbage"), some (pstr "123"), some (pstr "w")⟩
      (utf8Encode (pstr "body")) = .ok (utf8Encode (pstr "body"), pstr "w") :=
  claim_C4 [] ⟨some (pstr "v1,garbage"), some (pstr "123"), some (pstr "w")⟩
    (utf8Encode (pstr "body")) (Or.inl rfl)

/-- Claim C5: `process_gmail_message` is total — it always returns a
boolean outcome and never propagates an exception (the final conjunct:
any raised exception inside the body is converted to a `false` outcome
with the actions taken so far). An empty `user_id` or `connection_id`
yields failure with no external action at all; an empty acquired tool
set yields failure with no agent invocation; a raising tool fetch or
agent run yields a failure outcome. -/
theorem claim_C5 (m : GmailMessage) (uf : PyStr) (env : ProcEnv) :
    (m.user_id = [] → process_gmail_message m uf env = (false, []))
    ∧ (m.connection_id = [] → process_gmail_message m uf env = (false, []))
    ∧ (env.toolsResult = .ok [] → (process_gmail_message m uf env).1 = false
        ∧ ∀ p, PEvent.agentRun p ∉ (process_gmail_message m uf env).2)
    ∧ (∀ e, env.toolsResult = .error e → (process_gmail_message m uf env).1 = false
        ∧ ∀ p, PEvent.agentRun p ∉ (process_gmail_message m uf env).2)
    ∧ (∀ e, env.runResult = .error e → (process_gmail_message m uf env).1 = false)
    ∧ (∀ e tr, processBody m uf env = (.error e, tr) →
        process_gmail_message m uf env = (false, tr)) := by
  refine ⟨?_, ?_, ?_, ?_, ?_, ?_⟩
  · intro h
    simp [process_gmail_message, processBody, h]
  · intro h
    by_cases hu : m.user_id.isEmpty <;>
      simp [process_gmail_message, processBody, h, hu]
  · intro h
    by_cases hu : m.user_id.isEmpty <;> by_cases hc : m.connection_id.isEmpty <;>
      simp [process_gmail_message, processBody, h, hu, hc]
  · intro e h
    by_cases hu : m.user_id.isEmpty <;> by_cases hc : m.connection_id.isEmpty <;>
      simp [process_gmail_message, processBody, h, hu, hc]
  · intro e h
    by_cases hu : m.user_id.isEmpty
    · simp [process_gmail_message, processBody, hu]
    · by_cases hc : m.connection_id.isEmpty
      · simp [process_gmail_message, processBody, hu, hc]
      · rcases ht : env.toolsResult with et | tools
        · simp [process_gmail_message, processBody, hu, hc, ht]
        · by_cases hto : tools.isEmpty
          · simp [process_gmail_message, processBody, hu, hc, ht, hto]
          · simp [process_gmail_message, processBody, hu, hc, ht, hto, h]
  · intro e tr h
    simp [process_gmail_message, h]

/-- Claim C5, witness at a message with an empty `user_id`. -/
theorem claim_C5_witness :
    process_gmail_message
      { connection_id := pstr "c", connection_nano_id := [], trigger_id := [],
        trigger_nano_id := [], user_id := [], id := pstr "m", thread_id := [],
        sender := [], «to» := [], subject := [], timestampMs := 0, labels := [],
        text_body := none, html_body := none }
      (pstr "filter") ⟨.ok [pstr "GMAIL_ADD_LABEL_TO_EMAIL"], .ok (pstr "done")⟩
      = (false, []) :=
  (claim_C5 _ _ _).1 rfl

/-- Claim C8: `get_user_prompt` returns the stored directive when one
exists (a first row carrying a `prompt` key), and the default when the
result set is empty, when the first row lacks the key, or when the
lookup raises; it never raises itself (every case returns a value). -/
theorem claim_C8 (uid dflt : PyStr) :
    (∀ e, get_user_prompt uid dflt (.error e) = .jstr dflt)
    ∧ get_user_prompt uid dflt (.ok []) = .jstr dflt
    ∧ (∀ fs v rest, jfind fs (pstr "prompt") = some v →
        get_user_prompt uid dflt (.ok (.jobj fs :: rest)) = v)
    ∧ (∀ fs rest, jfind fs (pstr "prompt") = none →
        get_user_prompt uid dflt (.ok (.jobj fs :: rest)) = .jstr dflt) := by
  refine ⟨fun e => rfl, rfl, fun fs v rest h => ?_, fun fs rest h => ?_⟩
  · simp [get_user_prompt, jsub, h]
  · simp [get_user_prompt, jsub, h]

/-- Claim C8, witness: a stored row is returned, an empty result set and
a raising lookup both yield the default. -/
theorem claim_C8_witness :
    get_user_prompt (pstr "u") (pstr "DEFAULT")
        (.ok [.jobj [(pstr "prompt", .jstr (pstr "stored"))]]) = .jstr (pstr "stored")
    ∧ get_user_prompt (pstr "u") (pstr "DEFAULT") (.ok []) = .jstr (pstr "DEFAULT")
    ∧ get_user_prompt (pstr "u") (pstr "DEFAULT") (.error .typeError)
        = .jstr (pstr "DEFAULT") :=
  ⟨(claim_C8 (pstr "u") (pstr "DEFAULT")).2.2.1 _ _ [] rfl,
   (claim_C8 (pstr "u") (pstr "DEFAULT")).2.1,
   (claim_C8 (pstr "u") (pstr "DEFAULT")).1 .typeError⟩

/-- The webhook handler, unfolded into its verification, type test and
branch steps. -/
theorem listen_webhooks_eq (secret : PyStr) (hdrs : Headers) (body : PyBytes)
    (webhook_data promptGlobal : JVal) (rows : Except PyExn (List JVal)) (now : Int) :
    listen_webhooks secret hdrs body webhook_data promptGlobal rows now
      = (verify_webhook_signature secret hdrs body) >>= (fun r =>
          (dget webhook_data (pstr "type")) >>= (fun tO =>
            if jeqStr tO (pstr "gmail_new_message") then
              pure ({ status := pstr "received", webhook_id := r.2 },
                gmailBranch webhook_data promptGlobal rows now)
            else
              (asStr (tO.getD (.jstr []))) >>= (fun tStr =>
                pure ({ status := pstr "received", webhook_id := r.2 },
                  if containsStr (pyLower tStr) (pstr "gmail") then
                    gmailBranch webhook_data promptGlobal rows now
                  else [])))) := rfl

/-- Claim C6: a Gmail-typed payload lacking the `data` key fails
normalization with the typed missing-data `ValueError`, and the handler
still acknowledges with the 200 `{"status": "received"}` response (and
dispatches no task). -/
theorem claim_C6 (fs : List (PyStr × JVal)) (hdrs : Headers) (body : PyBytes)
    (pg : JVal) (rows : Except PyExn (List JVal)) (now : Int)
    (hdata : jfind fs (pstr "data") = none)
    (htype : jfind fs (pstr "type") = some (.jstr (pstr "gmail_new_message"))) :
    from_composio_payload (.jobj fs) now = .error (.valueError missingDataMsg)
    ∧ listen_webhooks [] hdrs body (.jobj fs) pg rows now
      = .ok ({ status := pstr "received", webhook_id := hdrs.webhookId.getD [] },
             [.normAttempt]) := by
  have hnorm : from_composio_payload (.jobj fs) now = .error (.valueError missingDataMsg) := by
    rw [from_composio_payload_jobj, hdata]
    simp [pyTruthyO]
  refine ⟨hnorm, ?_⟩
  have hv := verify_skip [] hdrs body (Or.inl rfl)
  rw [listen_webhooks_eq, hv]
  simp only [ebind_ok, dget, htype]
  simp only [jeqStr, gmailBranch, hnorm]
  rfl

/-- Claim C6, witness at a concrete Gmail payload with no `data` key. -/
theorem claim_C6_witness :
    listen_webhooks [] ⟨none, none, some (pstr "wid")⟩ []
        (.jobj [(pstr "type", .jstr (pstr "gmail_new_message"))]) .jnull (.ok []) 0
      = .ok ({ status := pstr "received", webhook_id := pstr "wid" }, [.normAttempt]) :=
  (claim_C6 [(pstr "type", .jstr (pstr "gmail_new_message"))]
    ⟨none, none, some (pstr "wid")⟩ [] .jnull (.ok []) 0 rfl rfl).2

/-- Claim C10: a verified webhook whose declared type is neither
`gmail_new_message` nor contains `gmail` case-insensitively is
acknowledged with the 200 received response and an empty action trace —
no normalization attempt and no dispatched task. -/
theorem claim_C10 (t : PyStr) (fs : List (PyStr × JVal)) (hdrs : Headers) (body : PyBytes)
    (pg : JVal) (rows : Except PyExn (List JVal)) (now : Int)
    (htype : jfind fs (pstr "type") = some (.jstr t))
    (h1 : t ≠ pstr "gmail_new_message")
    (h2 : containsStr (pyLower t) (pstr "gmail") = false) :
    listen_webhooks [] hdrs body (.jobj fs) pg rows now
      = .ok ({ status := pstr "received", webhook_id := hdrs.webhookId.getD [] }, []) := by
  have hv := verify_skip [] hdrs body (Or.inl rfl)
  rw [listen_webhooks_eq, hv]
  simp only [ebind_ok, dget, htype]
  simp only [jeqStr, h1, asStr, Option.getD_some, ebind_ok, h2]
  rfl

/-- Claim C10, witness at a Slack-typed webhook. -/
theorem claim_C10_witness :
    listen_webhooks [] ⟨none, none, some (pstr "wid")⟩ []
        (.jobj [(pstr "type", .jstr (pstr "slack_event"))]) .jnull (.ok []) 0
      = .ok ({ status := pstr "received", webhook_id := pstr "wid" }, []) :=
  claim_C10 (pstr "slack_event") [(pstr "type", .jstr (pstr "slack_event"))]
    ⟨none, none, some (pstr "wid")⟩ [] .jnull (.ok []) 0 rfl (by decide) rfl

end GmailFilter

